import Mathlib

/-!
Verification of the decoder module of jpegxl-rs (src/decoder.rs): a shallow
embedding of the decoder handle, its builder and the event-driven decode loop.
The opaque libjxl engine is an external collaborator consumed through a fixed
status protocol, so it is modelled as an oracle that supplies the status code
returned by each FFI call and the data (basic info, buffer size) the loop reads
back; the loop itself is translated statement by statement from the source.
-/

/-- Raw status code JXL_DEC_SUCCESS of the engine (jpegxl-sys bindings). -/
def JXL_DEC_SUCCESS : Nat := 0

/-- Raw status code JXL_DEC_ERROR of the engine. -/
def JXL_DEC_ERROR : Nat := 1

/-- Raw status code JXL_DEC_NEED_MORE_INPUT of the engine. -/
def JXL_DEC_NEED_MORE_INPUT : Nat := 2

/-- Raw status code JXL_DEC_NEED_IMAGE_OUT_BUFFER of the engine. -/
def JXL_DEC_NEED_IMAGE_OUT_BUFFER : Nat := 5

/-- Raw status code JXL_DEC_BASIC_INFO of the engine. -/
def JXL_DEC_BASIC_INFO : Nat := 64

/-- Raw status code JXL_DEC_FULL_IMAGE of the engine. -/
def JXL_DEC_FULL_IMAGE : Nat := 4096

/-- Image metadata (JxlBasicInfo of the jpegxl-sys bindings); only the fields
the decoder module reads in its tests (xsize, ysize) are modelled. -/
structure BasicInfo where
  xsize : Nat
  ysize : Nat
deriving DecidableEq

/-- Pixel layout descriptor (JxlPixelFormat of the jpegxl-sys bindings):
channel count, raw element data-type code, raw endianness code, row alignment. -/
structure JxlPixelFormat where
  num_channels : Nat
  data_type : Nat
  endianness : Nat
  align : Nat
deriving DecidableEq

/-- Modelled from the spec: the error type of decoding (error.rs is not under
src); its kinds are the spec error taxonomy: GenericError, NeedMoreInput and
UnknownStatus carrying the raw status code. -/
inductive DecodeError where
  | GenericError
  | NeedMoreInput
  | UnknownStatus (status : Nat)
deriving DecidableEq

/-- Modelled from the spec: check_dec_status (error.rs is not under src)
converts a raw engine status into Ok, or into the DecodeError kind the spec
taxonomy assigns it: the engine error status becomes GenericError, the
insufficient-input status becomes NeedMoreInput, and any other non-success
status becomes UnknownStatus with the raw code. -/
def check_dec_status (status : Nat) : Except DecodeError Unit :=
  if status = JXL_DEC_SUCCESS then Except.ok ()
  else if status = JXL_DEC_ERROR then Except.error DecodeError.GenericError
  else if status = JXL_DEC_NEED_MORE_INPUT then Except.error DecodeError.NeedMoreInput
  else Except.error (DecodeError.UnknownStatus status)

/-- Modelled from the spec: the byte-order choice of the Pixel Format
Descriptor (common.rs is not under src): native, little or big. -/
inductive Endianness where
  | Native
  | Little
  | Big
deriving DecidableEq

/-- Raw JxlEndianness code of an Endianness (the conversion common.rs performs). -/
def Endianness.toRaw : Endianness → Nat
  | Endianness.Native => 0
  | Endianness.Little => 1
  | Endianness.Big => 2

/-- Modelled from the spec: the PixelType trait bound of the element type
(common.rs is not under src): an element type exposing its raw JxlDataType code
and a default element value used to fill newly allocated buffer space. -/
class PixelType (T : Type) where
  pixel_type : Nat
  default : T

/-- Modelled from the spec: a caller-supplied Memory Manager Adapter
(memory.rs is not under src); only its identity matters to the decoder module. -/
structure JXLMemoryManager where
  id : Nat
deriving DecidableEq

/-- Modelled from the spec: the Parallel Runner Adapter (parallel.rs is not
under src): the sequential ParallelRunner, the thread-pool ThreadsRunner, or a
caller-supplied runner; only its identity matters to the decoder module. -/
inductive JXLParallelRunner where
  | ParallelRunner
  | ThreadsRunner
  | custom (id : Nat)
deriving DecidableEq

/-- Vec::resize(new_len, value) semantics: truncate to new_len when shorter,
otherwise extend with copies of value. -/
def resize {T : Type} (l : List T) (newLen : Nat) (value : T) : List T :=
  l.take newLen ++ List.replicate (newLen - l.length) value

/-- JXLDecoder (src/decoder.rs lines 34-47): the handle owning the raw engine
pointer, the pixel format and the optional adapters. The raw pointer returned
by JxlDecoderCreate is modelled as an Option Nat, none standing for the null
pointer. The source field _memory_manager is named memory_manager here. -/
structure JXLDecoder (T : Type) where
  dec : Option Nat
  pixel_format : JxlPixelFormat
  memory_manager : Option JXLMemoryManager
  parallel_runner : Option JXLParallelRunner

/-- JXLDecoder::new (src/decoder.rs lines 51-71): calls JxlDecoderCreate with
the manager when one is present and null otherwise, then unconditionally wraps
whatever pointer came back - the return type is the handle itself, not a
result. The create argument is the oracle for JxlDecoderCreate; its Bool
argument records whether a manager pointer was passed. -/
def JXLDecoder.new {T : Type} (create : Bool → Option Nat) (pixel_format : JxlPixelFormat)
    (memory_manager : Option JXLMemoryManager) (parallel_runner : Option JXLParallelRunner) :
    JXLDecoder T :=
  ⟨create memory_manager.isSome, pixel_format, memory_manager, parallel_runner⟩

/-- Trace entries recording which engine FFI functions a decode call invoked,
in order. -/
inductive EngCall where
  | setParallelRunner
  | subscribeEvents
  | processInput
  | getBasicInfo
  | imageOutBufferSize
  | setImageOutBuffer
  | reset
deriving DecidableEq

/-- Oracle responses of the opaque engine for one iteration of the decode
loop: the status JxlDecoderProcessInput returns, and the results of the calls
the loop may make in reaction (the status of JxlDecoderGetBasicInfo and the
info it writes, the status of JxlDecoderImageOutBufferSize and the size it
writes, the status of JxlDecoderSetImageOutBuffer). -/
structure IterResp where
  processStatus : Nat
  getInfoStatus : Nat
  info : BasicInfo
  sizeStatus : Nat
  size : Nat
  setBufStatus : Nat
deriving DecidableEq

/-- Oracle responses of the opaque engine for one whole decode call: the status
of JxlDecoderSetParallelRunner, the status of JxlDecoderSubscribeEvents, and
the per-iteration responses. -/
structure Engine where
  setRunnerStatus : Nat
  subscribeStatus : Nat
  iters : List IterResp
deriving DecidableEq

/-- The decode loop of JXLDecoder::decode (src/decoder.rs lines 107-153),
iterating over the engine oracle's per-iteration responses and threading the
loop-local state (cached basic info, output buffer) exactly as the source
does; alongside the result it returns the trace of engine calls made. A real
engine always answers JxlDecoderProcessInput, so an exhausted oracle never
models a real execution; it is mapped to an engine error and never arises in
the theorems below, which always supply a terminating status. -/
def decodeLoop {T : Type} [PixelType T] :
    List IterResp → Option BasicInfo → List T →
      Except DecodeError (BasicInfo × List T) × List EngCall
  | [], _, _ => (Except.error DecodeError.GenericError, [])
  | r :: rest, basicInfo, buffer =>
    if r.processStatus = JXL_DEC_ERROR then
      (Except.error DecodeError.GenericError, [EngCall.processInput])
    else if r.processStatus = JXL_DEC_NEED_MORE_INPUT then
      (Except.error DecodeError.NeedMoreInput, [EngCall.processInput])
    else if r.processStatus = JXL_DEC_BASIC_INFO then
      match check_dec_status r.getInfoStatus with
      | Except.error e => (Except.error e, [EngCall.processInput, EngCall.getBasicInfo])
      | Except.ok _ =>
        let r1 := decodeLoop rest (some r.info) buffer
        (r1.1, EngCall.processInput :: EngCall.getBasicInfo :: r1.2)
    else if r.processStatus = JXL_DEC_NEED_IMAGE_OUT_BUFFER then
      match check_dec_status r.sizeStatus with
      | Except.error e => (Except.error e, [EngCall.processInput, EngCall.imageOutBufferSize])
      | Except.ok _ =>
        let buffer2 := resize buffer r.size PixelType.default
        match check_dec_status r.setBufStatus with
        | Except.error e =>
          (Except.error e,
            [EngCall.processInput, EngCall.imageOutBufferSize, EngCall.setImageOutBuffer])
        | Except.ok _ =>
          let r1 := decodeLoop rest basicInfo buffer2
          (r1.1,
            EngCall.processInput :: EngCall.imageOutBufferSize ::
              EngCall.setImageOutBuffer :: r1.2)
    else if r.processStatus = JXL_DEC_FULL_IMAGE then
      let r1 := decodeLoop rest basicInfo buffer
      (r1.1, EngCall.processInput :: r1.2)
    else if r.processStatus = JXL_DEC_SUCCESS then
      match basicInfo with
      | some info => (Except.ok (info, buffer), [EngCall.processInput, EngCall.reset])
      | none => (Except.error DecodeError.GenericError, [EngCall.processInput, EngCall.reset])
    else
      (Except.error (DecodeError.UnknownStatus r.processStatus), [EngCall.processInput])

/-- JXLDecoder::decode (src/decoder.rs lines 85-155): when a parallel runner
is configured it is wired in first via JxlDecoderSetParallelRunner (checked by
check_dec_status), then the two events are subscribed, then the loop runs with
no cached info and an empty buffer, exactly as the source. Returns the result
together with the trace of engine calls. -/
def JXLDecoder.decode {T : Type} [PixelType T] (d : JXLDecoder T) (eng : Engine) :
    Except DecodeError (BasicInfo × List T) × List EngCall :=
  match d.parallel_runner with
  | some _ =>
    match check_dec_status eng.setRunnerStatus with
    | Except.error e => (Except.error e, [EngCall.setParallelRunner])
    | Except.ok _ =>
      match check_dec_status eng.subscribeStatus with
      | Except.error e => (Except.error e, [EngCall.setParallelRunner, EngCall.subscribeEvents])
      | Except.ok _ =>
        let r1 := decodeLoop eng.iters none ([] : List T)
        (r1.1, EngCall.setParallelRunner :: EngCall.subscribeEvents :: r1.2)
  | none =>
    match check_dec_status eng.subscribeStatus with
    | Except.error e => (Except.error e, [EngCall.subscribeEvents])
    | Except.ok _ =>
      let r1 := decodeLoop eng.iters none ([] : List T)
      (r1.1, EngCall.subscribeEvents :: r1.2)

/-- JXLDecoderBuilder (src/decoder.rs lines 165-170): accumulated
configuration. -/
structure JXLDecoderBuilder (T : Type) where
  pixel_format : JxlPixelFormat
  memory_manager : Option JXLMemoryManager
  parallel_runner : Option JXLParallelRunner

/-- Builder option num_channels (src/decoder.rs lines 174-177). -/
def JXLDecoderBuilder.num_channels {T : Type} (b : JXLDecoderBuilder T) (num : Nat) :
    JXLDecoderBuilder T :=
  ⟨⟨num, b.pixel_format.data_type, b.pixel_format.endianness, b.pixel_format.align⟩,
    b.memory_manager, b.parallel_runner⟩

/-- Builder option endian (src/decoder.rs lines 180-183). -/
def JXLDecoderBuilder.endian {T : Type} (b : JXLDecoderBuilder T) (e : Endianness) :
    JXLDecoderBuilder T :=
  ⟨⟨b.pixel_format.num_channels, b.pixel_format.data_type, e.toRaw, b.pixel_format.align⟩,
    b.memory_manager, b.parallel_runner⟩

/-- Builder option align (src/decoder.rs lines 186-189). -/
def JXLDecoderBuilder.align {T : Type} (b : JXLDecoderBuilder T) (a : Nat) :
    JXLDecoderBuilder T :=
  ⟨⟨b.pixel_format.num_channels, b.pixel_format.data_type, b.pixel_format.endianness, a⟩,
    b.memory_manager, b.parallel_runner⟩

/-- Builder option memory_manager (src/decoder.rs lines 192-195); named
set_memory_manager because the field of the same name exists. -/
def JXLDecoderBuilder.set_memory_manager {T : Type} (b : JXLDecoderBuilder T)
    (mm : JXLMemoryManager) : JXLDecoderBuilder T :=
  ⟨b.pixel_format, some mm, b.parallel_runner⟩

/-- Builder option parallel_runner (src/decoder.rs lines 198-201); named
set_parallel_runner because the field of the same name exists. -/
def JXLDecoderBuilder.set_parallel_runner {T : Type} (b : JXLDecoderBuilder T)
    (pr : JXLParallelRunner) : JXLDecoderBuilder T :=
  ⟨b.pixel_format, b.memory_manager, some pr⟩

/-- JXLDecoderBuilder::build (src/decoder.rs lines 204-206): hands the
accumulated configuration to JXLDecoder::new; like new it takes the
JxlDecoderCreate oracle. -/
def JXLDecoderBuilder.build {T : Type} (b : JXLDecoderBuilder T)
    (create : Bool → Option Nat) : JXLDecoder T :=
  JXLDecoder.new create b.pixel_format b.memory_manager b.parallel_runner

/-- decoder_builder (src/decoder.rs lines 210-228): default configuration of
4 channels, the element data type of T, native endianness, alignment 0, no
memory manager, and a default parallel runner chosen by the without-threads
build feature (modelled as the withoutThreads argument): the sequential
ParallelRunner when set, the ThreadsRunner otherwise. -/
def decoder_builder (T : Type) [PixelType T] (withoutThreads : Bool) :
    JXLDecoderBuilder T :=
  ⟨⟨4, @PixelType.pixel_type T _, Endianness.Native.toRaw, 0⟩, none,
    some (if withoutThreads then JXLParallelRunner.ParallelRunner
      else JXLParallelRunner.ThreadsRunner)⟩

/-- Pixel element instance used by concrete witnesses: a u8-like element,
raw JxlDataType code 2, default value 0. -/
instance : PixelType Nat := ⟨2, 0⟩

/-- An iteration on which the loop does not exit: a basic-info event whose
info read succeeds, a need-image-out-buffer event whose size query and buffer
registration succeed, or the full-image continuation signal. -/
abbrev IterResp.continuing (r : IterResp) : Prop :=
  (r.processStatus = JXL_DEC_BASIC_INFO ∧ r.getInfoStatus = JXL_DEC_SUCCESS) ∨
  (r.processStatus = JXL_DEC_NEED_IMAGE_OUT_BUFFER ∧ r.sizeStatus = JXL_DEC_SUCCESS ∧
    r.setBufStatus = JXL_DEC_SUCCESS) ∨
  r.processStatus = JXL_DEC_FULL_IMAGE

/-- Effect of one continuing iteration on the cached basic info. -/
def stepInfo (r : IterResp) (bi : Option BasicInfo) : Option BasicInfo :=
  if r.processStatus = JXL_DEC_BASIC_INFO then some r.info else bi

/-- Effect of one continuing iteration on the output buffer. -/
def stepBuf {T : Type} [PixelType T] (r : IterResp) (buf : List T) : List T :=
  if r.processStatus = JXL_DEC_NEED_IMAGE_OUT_BUFFER then resize buf r.size PixelType.default
  else buf

/-- Cached basic info after a run of continuing iterations. -/
def infoAfter (pre : List IterResp) (bi : Option BasicInfo) : Option BasicInfo :=
  pre.foldl (fun b r => stepInfo r b) bi

/-- Output buffer after a run of continuing iterations. -/
def bufAfter {T : Type} [PixelType T] (pre : List IterResp) (buf : List T) : List T :=
  pre.foldl (fun b r => stepBuf r b) buf

theorem resize_length {T : Type} (l : List T) (n : Nat) (v : T) :
    (resize l n v).length = n := by
  simp only [resize, List.length_append, List.length_take, List.length_replicate]
  omega

theorem decodeLoop_cons_error {T : Type} [PixelType T] (r : IterResp) (l : List IterResp)
    (bi : Option BasicInfo) (buf : List T) (h : r.processStatus = JXL_DEC_ERROR) :
    decodeLoop (r :: l) bi buf =
      (Except.error DecodeError.GenericError, [EngCall.processInput]) := by
  simp [decodeLoop, h, JXL_DEC_ERROR]

theorem decodeLoop_cons_nmi {T : Type} [PixelType T] (r : IterResp) (l : List IterResp)
    (bi : Option BasicInfo) (buf : List T) (h : r.processStatus = JXL_DEC_NEED_MORE_INPUT) :
    decodeLoop (r :: l) bi buf =
      (Except.error DecodeError.NeedMoreInput, [EngCall.processInput]) := by
  simp [decodeLoop, h, JXL_DEC_ERROR, JXL_DEC_NEED_MORE_INPUT]

theorem decodeLoop_cons_info {T : Type} [PixelType T] (r : IterResp) (l : List IterResp)
    (bi : Option BasicInfo) (buf : List T) (h : r.processStatus = JXL_DEC_BASIC_INFO)
    (h2 : r.getInfoStatus = JXL_DEC_SUCCESS) :
    decodeLoop (r :: l) bi buf =
      ((decodeLoop l (some r.info) buf).1,
        EngCall.processInput :: EngCall.getBasicInfo :: (decodeLoop l (some r.info) buf).2) := by
  simp [decodeLoop, h, h2, check_dec_status, JXL_DEC_ERROR, JXL_DEC_NEED_MORE_INPUT,
    JXL_DEC_BASIC_INFO, JXL_DEC_SUCCESS]

theorem decodeLoop_cons_needbuf {T : Type} [PixelType T] (r : IterResp) (l : List IterResp)
    (bi : Option BasicInfo) (buf : List T)
    (h : r.processStatus = JXL_DEC_NEED_IMAGE_OUT_BUFFER)
    (h2 : r.sizeStatus = JXL_DEC_SUCCESS) (h3 : r.setBufStatus = JXL_DEC_SUCCESS) :
    decodeLoop (r :: l) bi buf =
      ((decodeLoop l bi (resize buf r.size PixelType.default)).1,
        EngCall.processInput :: EngCall.imageOutBufferSize :: EngCall.setImageOutBuffer ::
          (decodeLoop l bi (resize buf r.size PixelType.default)).2) := by
  simp [decodeLoop, h, h2, h3, check_dec_status, JXL_DEC_ERROR, JXL_DEC_NEED_MORE_INPUT,
    JXL_DEC_BASIC_INFO, JXL_DEC_NEED_IMAGE_OUT_BUFFER, JXL_DEC_SUCCESS]

theorem decodeLoop_cons_full {T : Type} [PixelType T] (r : IterResp) (l : List IterResp)
    (bi : Option BasicInfo) (buf : List T) (h : r.processStatus = JXL_DEC_FULL_IMAGE) :
    decodeLoop (r :: l) bi buf =
      ((decodeLoop l bi buf).1, EngCall.processInput :: (decodeLoop l bi buf).2) := by
  simp [decodeLoop, h, JXL_DEC_ERROR, JXL_DEC_NEED_MORE_INPUT, JXL_DEC_BASIC_INFO,
    JXL_DEC_NEED_IMAGE_OUT_BUFFER, JXL_DEC_FULL_IMAGE, JXL_DEC_SUCCESS]

theorem decodeLoop_cons_success {T : Type} [PixelType T] (r : IterResp) (l : List IterResp)
    (bi : Option BasicInfo) (buf : List T) (h : r.processStatus = JXL_DEC_SUCCESS) :
    decodeLoop (r :: l) bi buf =
      (match bi with
        | some info => (Except.ok (info, buf), [EngCall.processInput, EngCall.reset])
        | none => (Except.error DecodeError.GenericError,
            [EngCall.processInput, EngCall.reset])) := by
  cases bi <;>
    simp [decodeLoop, h, JXL_DEC_ERROR, JXL_DEC_NEED_MORE_INPUT, JXL_DEC_BASIC_INFO,
      JXL_DEC_NEED_IMAGE_OUT_BUFFER, JXL_DEC_FULL_IMAGE, JXL_DEC_SUCCESS]

theorem decodeLoop_cons_unknown {T : Type} [PixelType T] (r : IterResp) (l : List IterResp)
    (bi : Option BasicInfo) (buf : List T)
    (h1 : r.processStatus ≠ JXL_DEC_ERROR) (h2 : r.processStatus ≠ JXL_DEC_NEED_MORE_INPUT)
    (h3 : r.processStatus ≠ JXL_DEC_BASIC_INFO)
    (h4 : r.processStatus ≠ JXL_DEC_NEED_IMAGE_OUT_BUFFER)
    (h5 : r.processStatus ≠ JXL_DEC_FULL_IMAGE) (h6 : r.processStatus ≠ JXL_DEC_SUCCESS) :
    decodeLoop (r :: l) bi buf =
      (Except.error (DecodeError.UnknownStatus r.processStatus), [EngCall.processInput]) := by
  simp [decodeLoop, h1, h2, h3, h4, h5, h6]

theorem decodeLoop_cons_continuing_fst {T : Type} [PixelType T] (r : IterResp)
    (l : List IterResp) (bi : Option BasicInfo) (buf : List T) (h : r.continuing) :
    (decodeLoop (r :: l) bi buf).1 = (decodeLoop l (stepInfo r bi) (stepBuf r buf)).1 := by
  rcases h with ⟨h1, h2⟩ | ⟨h1, h2, h3⟩ | h1
  · rw [decodeLoop_cons_info r l bi buf h1 h2]
    simp [stepInfo, stepBuf, h1, JXL_DEC_BASIC_INFO, JXL_DEC_NEED_IMAGE_OUT_BUFFER]
  · rw [decodeLoop_cons_needbuf r l bi buf h1 h2 h3]
    simp [stepInfo, stepBuf, h1, JXL_DEC_BASIC_INFO, JXL_DEC_NEED_IMAGE_OUT_BUFFER]
  · rw [decodeLoop_cons_full r l bi buf h1]
    simp [stepInfo, stepBuf, h1, JXL_DEC_BASIC_INFO, JXL_DEC_NEED_IMAGE_OUT_BUFFER,
      JXL_DEC_FULL_IMAGE]

theorem decodeLoop_cons_continuing_mem {T : Type} [PixelType T] (r : IterResp)
    (l : List IterResp) (bi : Option BasicInfo) (buf : List T) (h : r.continuing)
    (c : EngCall) (hc : c ∈ (decodeLoop l (stepInfo r bi) (stepBuf r buf)).2) :
    c ∈ (decodeLoop (r :: l) bi buf).2 := by
  rcases h with ⟨h1, h2⟩ | ⟨h1, h2, h3⟩ | h1
  · rw [decodeLoop_cons_info r l bi buf h1 h2]
    simp only [stepInfo, stepBuf, h1, JXL_DEC_BASIC_INFO, JXL_DEC_NEED_IMAGE_OUT_BUFFER,
      if_pos, if_neg] at hc ⊢
    simp_all [List.mem_cons]
  · rw [decodeLoop_cons_needbuf r l bi buf h1 h2 h3]
    simp only [stepInfo, stepBuf, h1, JXL_DEC_BASIC_INFO, JXL_DEC_NEED_IMAGE_OUT_BUFFER,
      if_pos, if_neg] at hc ⊢
    simp_all [List.mem_cons]
  · rw [decodeLoop_cons_full r l bi buf h1]
    simp only [stepInfo, stepBuf, h1, JXL_DEC_BASIC_INFO, JXL_DEC_NEED_IMAGE_OUT_BUFFER,
      JXL_DEC_FULL_IMAGE, if_pos, if_neg] at hc ⊢
    simp_all [List.mem_cons]

theorem decodeLoop_append_fst {T : Type} [PixelType T] (pre l : List IterResp)
    (bi : Option BasicInfo) (buf : List T) (h : ∀ i ∈ pre, i.continuing) :
    (decodeLoop (pre ++ l) bi buf).1 =
      (decodeLoop l (infoAfter pre bi) (bufAfter pre buf)).1 := by
  induction pre generalizing bi buf with
  | nil => simp [infoAfter, bufAfter]
  | cons r tl ih =>
    have hr : r.continuing := h r (List.mem_cons_self r tl)
    have htl : ∀ i ∈ tl, i.continuing := fun i hi => h i (List.mem_cons_of_mem r hi)
    rw [List.cons_append, decodeLoop_cons_continuing_fst r (tl ++ l) bi buf hr,
      ih (stepInfo r bi) (stepBuf r buf) htl]
    simp [infoAfter, bufAfter]

theorem decodeLoop_append_mem {T : Type} [PixelType T] (pre l : List IterResp)
    (bi : Option BasicInfo) (buf : List T) (h : ∀ i ∈ pre, i.continuing) (c : EngCall)
    (hc : c ∈ (decodeLoop l (infoAfter pre bi) (bufAfter pre buf)).2) :
    c ∈ (decodeLoop (pre ++ l) bi buf).2 := by
  induction pre generalizing bi buf with
  | nil => simpa [infoAfter, bufAfter] using hc
  | cons r tl ih =>
    have hr : r.continuing := h r (List.mem_cons_self r tl)
    have htl : ∀ i ∈ tl, i.continuing := fun i hi => h i (List.mem_cons_of_mem r hi)
    rw [List.cons_append]
    refine decodeLoop_cons_continuing_mem r (tl ++ l) bi buf hr c ?_
    refine ih (stepInfo r bi) (stepBuf r buf) htl ?_
    simpa [infoAfter, bufAfter] using hc

theorem infoAfter_preserve (tl : List IterResp) (info0 : BasicInfo)
    (hall : ∀ r ∈ tl, r.processStatus = JXL_DEC_BASIC_INFO → r.info = info0) :
    infoAfter tl (some info0) = some info0 := by
  induction tl with
  | nil => rfl
  | cons r tl ih =>
    have hr := hall r (List.mem_cons_self r tl)
    have htl : ∀ x ∈ tl, x.processStatus = JXL_DEC_BASIC_INFO → x.info = info0 :=
      fun x hx => hall x (List.mem_cons_of_mem r hx)
    by_cases hb : r.processStatus = JXL_DEC_BASIC_INFO
    · simp only [infoAfter, List.foldl_cons, stepInfo, hb, if_pos, hr hb]
      exact ih htl
    · simp only [infoAfter, List.foldl_cons, stepInfo, hb, if_neg, not_false_iff]
      exact ih htl

theorem infoAfter_of_fired (pre : List IterResp) (bi : Option BasicInfo) (info0 : BasicInfo)
    (hall : ∀ r ∈ pre, r.processStatus = JXL_DEC_BASIC_INFO → r.info = info0)
    (hfired : ∃ r ∈ pre, r.processStatus = JXL_DEC_BASIC_INFO) :
    infoAfter pre bi = some info0 := by
  induction pre generalizing bi with
  | nil => rcases hfired with ⟨r, hr, _⟩; cases hr
  | cons r tl ih =>
    have hr := hall r (List.mem_cons_self r tl)
    have htl : ∀ x ∈ tl, x.processStatus = JXL_DEC_BASIC_INFO → x.info = info0 :=
      fun x hx => hall x (List.mem_cons_of_mem r hx)
    by_cases hb : r.processStatus = JXL_DEC_BASIC_INFO
    · simp only [infoAfter, List.foldl_cons, stepInfo, hb, if_pos, hr hb]
      exact infoAfter_preserve tl info0 htl
    · rcases hfired with ⟨x, hx, hxs⟩
      rcases List.mem_cons.mp hx with rfl | hx
      · exact absurd hxs hb
      · simp only [infoAfter, List.foldl_cons, stepInfo, hb, if_neg, not_false_iff]
        exact ih bi htl ⟨x, hx, hxs⟩

theorem infoAfter_no_info (pre : List IterResp) (bi : Option BasicInfo)
    (h : ∀ r ∈ pre, r.processStatus ≠ JXL_DEC_BASIC_INFO) : infoAfter pre bi = bi := by
  induction pre generalizing bi with
  | nil => rfl
  | cons r tl ih =>
    have hr := h r (List.mem_cons_self r tl)
    have htl : ∀ x ∈ tl, x.processStatus ≠ JXL_DEC_BASIC_INFO :=
      fun x hx => h x (List.mem_cons_of_mem r hx)
    simp only [infoAfter, List.foldl_cons, stepInfo, hr, if_neg, not_false_iff]
    exact ih bi htl

theorem bufAfter_preserve {T : Type} [PixelType T] (tl : List IterResp) (buf : List T) (n : Nat)
    (hall : ∀ r ∈ tl, r.processStatus = JXL_DEC_NEED_IMAGE_OUT_BUFFER → r.size = n)
    (hlen : buf.length = n) : (bufAfter tl buf).length = n := by
  induction tl generalizing buf with
  | nil => exact hlen
  | cons r tl ih =>
    have hr := hall r (List.mem_cons_self r tl)
    have htl : ∀ x ∈ tl, x.processStatus = JXL_DEC_NEED_IMAGE_OUT_BUFFER → x.size = n :=
      fun x hx => hall x (List.mem_cons_of_mem r hx)
    by_cases hb : r.processStatus = JXL_DEC_NEED_IMAGE_OUT_BUFFER
    · simp only [bufAfter, List.foldl_cons, stepBuf, hb, if_pos]
      exact ih (resize buf r.size PixelType.default) htl (by rw [resize_length, hr hb])
    · simp only [bufAfter, List.foldl_cons, stepBuf, hb, if_neg, not_false_iff]
      exact ih buf htl hlen

theorem bufAfter_length {T : Type} [PixelType T] (pre : List IterResp) (buf : List T) (n : Nat)
    (hall : ∀ r ∈ pre, r.processStatus = JXL_DEC_NEED_IMAGE_OUT_BUFFER → r.size = n)
    (hfired : ∃ r ∈ pre, r.processStatus = JXL_DEC_NEED_IMAGE_OUT_BUFFER) :
    (bufAfter pre buf).length = n := by
  induction pre generalizing buf with
  | nil => rcases hfired with ⟨r, hr, _⟩; cases hr
  | cons r tl ih =>
    have hr := hall r (List.mem_cons_self r tl)
    have htl : ∀ x ∈ tl, x.processStatus = JXL_DEC_NEED_IMAGE_OUT_BUFFER → x.size = n :=
      fun x hx => hall x (List.mem_cons_of_mem r hx)
    by_cases hb : r.processStatus = JXL_DEC_NEED_IMAGE_OUT_BUFFER
    · simp only [bufAfter, List.foldl_cons, stepBuf, hb, if_pos]
      exact bufAfter_preserve tl (resize buf r.size PixelType.default) n htl
        (by rw [resize_length, hr hb])
    · rcases hfired with ⟨x, hx, hxs⟩
      rcases List.mem_cons.mp hx with rfl | hx
      · exact absurd hxs hb
      · simp only [bufAfter, List.foldl_cons, stepBuf, hb, if_neg, not_false_iff]
        exact ih buf htl ⟨x, hx, hxs⟩

theorem decode_fst_eq_loop {T : Type} [PixelType T] (d : JXLDecoder T) (eng : Engine)
    (h1 : eng.setRunnerStatus = JXL_DEC_SUCCESS) (h2 : eng.subscribeStatus = JXL_DEC_SUCCESS) :
    (JXLDecoder.decode d eng).1 = (decodeLoop eng.iters none ([] : List T)).1 := by
  cases hp : d.parallel_runner <;>
    simp [JXLDecoder.decode, hp, h1, h2, check_dec_status, JXL_DEC_SUCCESS]

theorem decode_mem_of_loop_mem {T : Type} [PixelType T] (d : JXLDecoder T) (eng : Engine)
    (h1 : eng.setRunnerStatus = JXL_DEC_SUCCESS) (h2 : eng.subscribeStatus = JXL_DEC_SUCCESS)
    (c : EngCall) (hc : c ∈ (decodeLoop eng.iters none ([] : List T)).2) :
    c ∈ (JXLDecoder.decode d eng).2 := by
  cases hp : d.parallel_runner <;>
    simp [JXLDecoder.decode, hp, h1, h2, check_dec_status, JXL_DEC_SUCCESS, List.mem_cons] <;>
    tauto

theorem check_dec_status_ne (s : Nat) (h : s ≠ JXL_DEC_SUCCESS) :
    ∃ e, check_dec_status s = Except.error e := by
  unfold check_dec_status
  rw [if_neg h]
  by_cases h1 : s = JXL_DEC_ERROR
  · rw [if_pos h1]; exact ⟨_, rfl⟩
  · rw [if_neg h1]
    by_cases h2 : s = JXL_DEC_NEED_MORE_INPUT
    · rw [if_pos h2]; exact ⟨_, rfl⟩
    · rw [if_neg h2]; exact ⟨_, rfl⟩

theorem check_dec_status_success (s : Nat) (h : s = JXL_DEC_SUCCESS) :
    check_dec_status s = Except.ok () := by
  simp [check_dec_status, h]

theorem decodeLoop_ok_mem_getInfo {T : Type} [PixelType T] (iters : List IterResp) :
    ∀ (bi : Option BasicInfo) (buf : List T) (p : BasicInfo × List T),
      (decodeLoop iters bi buf).1 = Except.ok p →
      bi.isSome = true ∨ EngCall.getBasicInfo ∈ (decodeLoop iters bi buf).2 := by
  induction iters with
  | nil => intro bi buf p h; simp [decodeLoop] at h
  | cons r rest ih =>
    intro bi buf p h
    by_cases h1 : r.processStatus = JXL_DEC_ERROR
    · rw [decodeLoop_cons_error r rest bi buf h1] at h; simp at h
    by_cases h2 : r.processStatus = JXL_DEC_NEED_MORE_INPUT
    · rw [decodeLoop_cons_nmi r rest bi buf h2] at h; simp at h
    by_cases h3 : r.processStatus = JXL_DEC_BASIC_INFO
    · by_cases hg : r.getInfoStatus = JXL_DEC_SUCCESS
      · rw [decodeLoop_cons_info r rest bi buf h3 hg]
        right
        simp [List.mem_cons]
      · rcases check_dec_status_ne r.getInfoStatus hg with ⟨e, he⟩
        rw [show decodeLoop (r :: rest) bi buf =
            (Except.error e, [EngCall.processInput, EngCall.getBasicInfo]) by
          simp [decodeLoop, h1, h2, h3, he, JXL_DEC_ERROR, JXL_DEC_NEED_MORE_INPUT,
            JXL_DEC_BASIC_INFO]] at h
        simp at h
    by_cases h4 : r.processStatus = JXL_DEC_NEED_IMAGE_OUT_BUFFER
    · by_cases hs : r.sizeStatus = JXL_DEC_SUCCESS
      · by_cases hb : r.setBufStatus = JXL_DEC_SUCCESS
        · rw [decodeLoop_cons_needbuf r rest bi buf h4 hs hb] at h ⊢
          rcases ih bi (resize buf r.size PixelType.default) p h with hbi | hmem
          · exact Or.inl hbi
          · right; simp only [List.mem_cons]; tauto
        · rcases check_dec_status_ne r.setBufStatus hb with ⟨e, he⟩
          rw [show decodeLoop (r :: rest) bi buf = (Except.error e,
              [EngCall.processInput, EngCall.imageOutBufferSize, EngCall.setImageOutBuffer]) by
            simp [decodeLoop, h1, h2, h3, h4, check_dec_status_success _ hs, he,
              JXL_DEC_ERROR, JXL_DEC_NEED_MORE_INPUT, JXL_DEC_BASIC_INFO,
              JXL_DEC_NEED_IMAGE_OUT_BUFFER]] at h
          simp at h
      · rcases check_dec_status_ne r.sizeStatus hs with ⟨e, he⟩
        rw [show decodeLoop (r :: rest) bi buf =
            (Except.error e, [EngCall.processInput, EngCall.imageOutBufferSize]) by
          simp [decodeLoop, h1, h2, h3, h4, he, JXL_DEC_ERROR, JXL_DEC_NEED_MORE_INPUT,
            JXL_DEC_BASIC_INFO, JXL_DEC_NEED_IMAGE_OUT_BUFFER]] at h
        simp at h
    by_cases h5 : r.processStatus = JXL_DEC_FULL_IMAGE
    · rw [decodeLoop_cons_full r rest bi buf h5] at h ⊢
      rcases ih bi buf p h with hbi | hmem
      · exact Or.inl hbi
      · right; simp only [List.mem_cons]; tauto
    by_cases h6 : r.processStatus = JXL_DEC_SUCCESS
    · rw [decodeLoop_cons_success r rest bi buf h6] at h
      cases bi with
      | none => simp at h
      | some i => exact Or.inl rfl
    · rw [decodeLoop_cons_unknown r rest bi buf h1 h2 h3 h4 h5 h6] at h
      simp at h

theorem decode_ok_mem_getInfo {T : Type} [PixelType T] (d : JXLDecoder T) (eng : Engine)
    (p : BasicInfo × List T) (h : (JXLDecoder.decode d eng).1 = Except.ok p) :
    EngCall.getBasicInfo ∈ (JXLDecoder.decode d eng).2 := by
  rcases hp : d.parallel_runner with _ | pr
  · rcases hs : check_dec_status eng.subscribeStatus with e | u
    · simp [JXLDecoder.decode, hp, hs] at h
    · simp only [JXLDecoder.decode, hp, hs] at h ⊢
      rcases decodeLoop_ok_mem_getInfo eng.iters none ([] : List T) p h with hbi | hmem
      · simp at hbi
      · simp only [List.mem_cons]; tauto
  · rcases hr : check_dec_status eng.setRunnerStatus with e | u
    · simp [JXLDecoder.decode, hp, hr] at h
    · rcases hs : check_dec_status eng.subscribeStatus with e | u2
      · simp [JXLDecoder.decode, hp, hr, hs] at h
      · simp only [JXLDecoder.decode, hp, hr, hs] at h ⊢
        rcases decodeLoop_ok_mem_getInfo eng.iters none ([] : List T) p h with hbi | hmem
        · simp at hbi
        · simp only [List.mem_cons]; tauto

theorem infoAfter_some_isSome (tl : List IterResp) (i : BasicInfo) :
    ∃ j, infoAfter tl (some i) = some j := by
  induction tl generalizing i with
  | nil => exact ⟨i, rfl⟩
  | cons r tl ih =>
    by_cases hb : r.processStatus = JXL_DEC_BASIC_INFO
    · simp only [infoAfter, List.foldl_cons, stepInfo, hb, if_pos]
      exact ih r.info
    · simp only [infoAfter, List.foldl_cons, stepInfo, hb, if_neg, not_false_iff]
      exact ih i

theorem infoAfter_isSome (pre : List IterResp) (bi : Option BasicInfo)
    (hfired : ∃ r ∈ pre, r.processStatus = JXL_DEC_BASIC_INFO) :
    ∃ j, infoAfter pre bi = some j := by
  induction pre generalizing bi with
  | nil => rcases hfired with ⟨r, hr, _⟩; cases hr
  | cons r tl ih =>
    by_cases hb : r.processStatus = JXL_DEC_BASIC_INFO
    · simp only [infoAfter, List.foldl_cons, stepInfo, hb, if_pos]
      exact infoAfter_some_isSome tl r.info
    · rcases hfired with ⟨x, hx, hxs⟩
      rcases List.mem_cons.mp hx with rfl | hx
      · exact absurd hxs hb
      · simp only [infoAfter, List.foldl_cons, stepInfo, hb, if_neg, not_false_iff]
        exact ih bi ⟨x, hx, hxs⟩

/-- Sample iteration of the engine oracle: basic-info event delivering i. -/
def infoIter (i : BasicInfo) : IterResp :=
  ⟨JXL_DEC_BASIC_INFO, JXL_DEC_SUCCESS, i, JXL_DEC_SUCCESS, 0, JXL_DEC_SUCCESS⟩

/-- Sample iteration of the engine oracle: need-image-out-buffer event
reporting buffer size n. -/
def needBufIter (n : Nat) : IterResp :=
  ⟨JXL_DEC_NEED_IMAGE_OUT_BUFFER, JXL_DEC_SUCCESS, ⟨0, 0⟩, JXL_DEC_SUCCESS, n, JXL_DEC_SUCCESS⟩

/-- Sample iteration of the engine oracle: success status. -/
def successIter : IterResp :=
  ⟨JXL_DEC_SUCCESS, JXL_DEC_SUCCESS, ⟨0, 0⟩, JXL_DEC_SUCCESS, 0, JXL_DEC_SUCCESS⟩

/-- Sample iteration of the engine oracle: error status. -/
def errorIter : IterResp :=
  ⟨JXL_DEC_ERROR, JXL_DEC_SUCCESS, ⟨0, 0⟩, JXL_DEC_SUCCESS, 0, JXL_DEC_SUCCESS⟩

/-- Sample iteration of the engine oracle: need-more-input status. -/
def nmiIter : IterResp :=
  ⟨JXL_DEC_NEED_MORE_INPUT, JXL_DEC_SUCCESS, ⟨0, 0⟩, JXL_DEC_SUCCESS, 0, JXL_DEC_SUCCESS⟩

/-- Sample iteration of the engine oracle: the need-preview-out-buffer status
(raw code 3), which the decode loop does not recognize. -/
def unknownIter : IterResp :=
  ⟨3, JXL_DEC_SUCCESS, ⟨0, 0⟩, JXL_DEC_SUCCESS, 0, JXL_DEC_SUCCESS⟩

/-- Sample decoder handle used by the witnesses: the default build over u8-like
elements with a succeeding engine creation. -/
def sampleDecoder : JXLDecoder Nat := (decoder_builder Nat false).build (fun _ => some 1)

/-- Claim C1 counterexample: with an engine creation that fails (the
JxlDecoderCreate oracle returns the null pointer), the default build still
returns a fully configured, usable-looking handle whose engine pointer is
null - construction does not fail with an error result. -/
theorem claim1_counterexample :
    ((decoder_builder Nat false).build (fun _ => none)).dec = none ∧
    ((decoder_builder Nat false).build (fun _ => none)).pixel_format.num_channels = 4 ∧
    ((decoder_builder Nat false).build (fun _ => none)).parallel_runner =
      some JXLParallelRunner.ThreadsRunner :=
  ⟨rfl, rfl, rfl⟩

/-- Claim C1 (amended): JXLDecoder::new and JXLDecoderBuilder::build always
return a handle - it wraps exactly the pointer engine creation returned, the
null pointer included, together with the requested configuration; no error
result exists on the construction path. -/
theorem claim1_theorem (T : Type) (create : Bool → Option Nat) (pf : JxlPixelFormat)
    (mm : Option JXLMemoryManager) (pr : Option JXLParallelRunner) :
    (JXLDecoder.new (T := T) create pf mm pr).dec = create mm.isSome ∧
    (JXLDecoder.new (T := T) create pf mm pr).pixel_format = pf ∧
    (JXLDecoder.new (T := T) create pf mm pr).memory_manager = mm ∧
    (JXLDecoder.new (T := T) create pf mm pr).parallel_runner = pr ∧
    ∀ b : JXLDecoderBuilder T, (b.build create).dec = create b.memory_manager.isSome :=
  ⟨rfl, rfl, rfl, rfl, fun _ => rfl⟩

/-- Claim C3: when the engine reports the need-more-input status the decode
call returns the NeedMoreInput error - a value distinct from GenericError -
and never a partial image; when the engine reports the error status the call
returns GenericError. -/
theorem claim3_theorem {T : Type} [PixelType T] (d : JXLDecoder T) (pre rest : List IterResp)
    (r : IterResp) (hpre : ∀ i ∈ pre, i.continuing) :
    (r.processStatus = JXL_DEC_NEED_MORE_INPUT →
      (JXLDecoder.decode d
          (Engine.mk JXL_DEC_SUCCESS JXL_DEC_SUCCESS (pre ++ r :: rest)) : _ × _).1 =
        Except.error DecodeError.NeedMoreInput) ∧
    (r.processStatus = JXL_DEC_ERROR →
      (JXLDecoder.decode d
          (Engine.mk JXL_DEC_SUCCESS JXL_DEC_SUCCESS (pre ++ r :: rest)) : _ × _).1 =
        Except.error DecodeError.GenericError) ∧
    DecodeError.NeedMoreInput ≠ DecodeError.GenericError := by
  refine ⟨fun h => ?_, fun h => ?_, fun h => DecodeError.noConfusion h⟩
  · rw [decode_fst_eq_loop d _ rfl rfl, decodeLoop_append_fst pre (r :: rest) none [] hpre,
      decodeLoop_cons_nmi r rest _ _ h]
  · rw [decode_fst_eq_loop d _ rfl rfl, decodeLoop_append_fst pre (r :: rest) none [] hpre,
      decodeLoop_cons_error r rest _ _ h]

/-- Claim C3 witness: concrete truncated-stream and error runs. -/
theorem claim3_witness :
    (JXLDecoder.decode sampleDecoder
        (Engine.mk JXL_DEC_SUCCESS JXL_DEC_SUCCESS ([infoIter ⟨1, 1⟩] ++ nmiIter :: []))).1 =
      Except.error DecodeError.NeedMoreInput ∧
    (JXLDecoder.decode sampleDecoder
        (Engine.mk JXL_DEC_SUCCESS JXL_DEC_SUCCESS ([infoIter ⟨1, 1⟩] ++ errorIter :: []))).1 =
      Except.error DecodeError.GenericError :=
  ⟨(claim3_theorem sampleDecoder [infoIter ⟨1, 1⟩] [] nmiIter (by decide)).1 (by decide),
    (claim3_theorem sampleDecoder [infoIter ⟨1, 1⟩] [] errorIter (by decide)).2.1 (by decide)⟩

/-- Claim C8: on a need-image-out-buffer event whose size query and buffer
registration succeed, the loop queries the engine for the required size,
resizes the output buffer to exactly that size filling every new slot with
the element type's default value, registers the buffer with the engine, and
continues the loop on the remaining iterations instead of exiting. -/
theorem claim8_theorem {T : Type} [PixelType T] (r : IterResp) (rest : List IterResp)
    (bi : Option BasicInfo) (buf : List T)
    (h : r.processStatus = JXL_DEC_NEED_IMAGE_OUT_BUFFER)
    (h2 : r.sizeStatus = JXL_DEC_SUCCESS) (h3 : r.setBufStatus = JXL_DEC_SUCCESS) :
    (decodeLoop (r :: rest) bi buf).1 =
      (decodeLoop rest bi (resize buf r.size (PixelType.default : T))).1 ∧
    (decodeLoop (r :: rest) bi buf).2 =
      EngCall.processInput :: EngCall.imageOutBufferSize :: EngCall.setImageOutBuffer ::
        (decodeLoop rest bi (resize buf r.size (PixelType.default : T))).2 ∧
    (resize buf r.size (PixelType.default : T)).length = r.size ∧
    resize buf r.size (PixelType.default : T) =
      buf.take r.size ++ List.replicate (r.size - buf.length) (PixelType.default : T) := by
  rw [decodeLoop_cons_needbuf r rest bi buf h h2 h3]
  exact ⟨rfl, rfl, resize_length buf r.size _, rfl⟩

/-- Claim C8 witness: a concrete need-image-out-buffer iteration over u8-like
elements. -/
theorem claim8_witness :
    (decodeLoop (needBufIter 6 :: [successIter]) (some ⟨1, 2⟩) ([] : List Nat)).1 =
      (decodeLoop [successIter] (some ⟨1, 2⟩)
        (resize ([] : List Nat) (needBufIter 6).size (PixelType.default : Nat))).1 ∧
    (decodeLoop (needBufIter 6 :: [successIter]) (some ⟨1, 2⟩) ([] : List Nat)).2 =
      EngCall.processInput :: EngCall.imageOutBufferSize :: EngCall.setImageOutBuffer ::
        (decodeLoop [successIter] (some ⟨1, 2⟩)
          (resize ([] : List Nat) (needBufIter 6).size (PixelType.default : Nat))).2 ∧
    (resize ([] : List Nat) (needBufIter 6).size (PixelType.default : Nat)).length =
      (needBufIter 6).size ∧
    resize ([] : List Nat) (needBufIter 6).size (PixelType.default : Nat) =
      ([] : List Nat).take (needBufIter 6).size ++
        List.replicate ((needBufIter 6).size - ([] : List Nat).length)
          (PixelType.default : Nat) :=
  claim8_theorem (needBufIter 6) [successIter] (some ⟨1, 2⟩) ([] : List Nat)
    (by decide) (by decide) (by decide)

/-- Claim C9: the default-built configuration has channel count 4, native
endianness and row alignment 0, no memory manager (the engine's built-in
default is used) and a default parallel runner installed - the sequential
runner under the without-threads feature, the thread-pool runner otherwise -
and each builder option, when set, overrides exactly its own default, leaving
every other field unchanged. -/
theorem claim9_theorem (T : Type) [PixelType T] (wt : Bool) :
    (decoder_builder T wt).pixel_format.num_channels = 4 ∧
    (decoder_builder T wt).pixel_format.endianness = Endianness.Native.toRaw ∧
    (decoder_builder T wt).pixel_format.align = 0 ∧
    (decoder_builder T wt).memory_manager = none ∧
    (decoder_builder T wt).parallel_runner =
      some (if wt then JXLParallelRunner.ParallelRunner
        else JXLParallelRunner.ThreadsRunner) ∧
    (∀ create : Bool → Option Nat,
      ((decoder_builder T wt).build create).memory_manager = none ∧
      ((decoder_builder T wt).build create).parallel_runner =
        some (if wt then JXLParallelRunner.ParallelRunner
          else JXLParallelRunner.ThreadsRunner)) ∧
    (∀ (b : JXLDecoderBuilder T) (n : Nat),
      (b.num_channels n).pixel_format.num_channels = n ∧
      (b.num_channels n).pixel_format.data_type = b.pixel_format.data_type ∧
      (b.num_channels n).pixel_format.endianness = b.pixel_format.endianness ∧
      (b.num_channels n).pixel_format.align = b.pixel_format.align ∧
      (b.num_channels n).memory_manager = b.memory_manager ∧
      (b.num_channels n).parallel_runner = b.parallel_runner) ∧
    (∀ (b : JXLDecoderBuilder T) (e : Endianness),
      (b.endian e).pixel_format.endianness = e.toRaw ∧
      (b.endian e).pixel_format.num_channels = b.pixel_format.num_channels ∧
      (b.endian e).pixel_format.data_type = b.pixel_format.data_type ∧
      (b.endian e).pixel_format.align = b.pixel_format.align ∧
      (b.endian e).memory_manager = b.memory_manager ∧
      (b.endian e).parallel_runner = b.parallel_runner) ∧
    (∀ (b : JXLDecoderBuilder T) (a : Nat),
      (b.align a).pixel_format.align = a ∧
      (b.align a).pixel_format.num_channels = b.pixel_format.num_channels ∧
      (b.align a).pixel_format.data_type = b.pixel_format.data_type ∧
      (b.align a).pixel_format.endianness = b.pixel_format.endianness ∧
      (b.align a).memory_manager = b.memory_manager ∧
      (b.align a).parallel_runner = b.parallel_runner) ∧
    (∀ (b : JXLDecoderBuilder T) (mm : JXLMemoryManager),
      (b.set_memory_manager mm).memory_manager = some mm ∧
      (b.set_memory_manager mm).pixel_format = b.pixel_format ∧
      (b.set_memory_manager mm).parallel_runner = b.parallel_runner) ∧
    (∀ (b : JXLDecoderBuilder T) (pr : JXLParallelRunner),
      (b.set_parallel_runner pr).parallel_runner = some pr ∧
      (b.set_parallel_runner pr).pixel_format = b.pixel_format ∧
      (b.set_parallel_runner pr).memory_manager = b.memory_manager) :=
  ⟨rfl, rfl, rfl, rfl, rfl, fun _ => ⟨rfl, rfl⟩,
    fun _ _ => ⟨rfl, rfl, rfl, rfl, rfl, rfl⟩, fun _ _ => ⟨rfl, rfl, rfl, rfl, rfl, rfl⟩,
    fun _ _ => ⟨rfl, rfl, rfl, rfl, rfl, rfl⟩, fun _ _ => ⟨rfl, rfl, rfl⟩,
    fun _ _ => ⟨rfl, rfl, rfl⟩⟩

/-- Claim C2: for every successful decode in which the engine honours its
size contract for byte-sized elements - along the run of continuing
iterations before the success status, every basic-info read reports the same
metadata info0, at least one basic-info and one need-image-out-buffer event
fire, and every buffer-size query reports xsize * ysize * num_channels - the
decode returns Ok with that metadata and an output buffer whose length equals
width * height * channel count from the returned BasicInfo. -/
theorem claim2_theorem {T : Type} [PixelType T] (d : JXLDecoder T) (pre rest : List IterResp)
    (s : IterResp) (info0 : BasicInfo)
    (hpre : ∀ i ∈ pre, i.continuing)
    (hs : s.processStatus = JXL_DEC_SUCCESS)
    (hinfo : ∀ r ∈ pre, r.processStatus = JXL_DEC_BASIC_INFO → r.info = info0)
    (hifired : ∃ r ∈ pre, r.processStatus = JXL_DEC_BASIC_INFO)
    (hsize : ∀ r ∈ pre, r.processStatus = JXL_DEC_NEED_IMAGE_OUT_BUFFER →
      r.size = info0.xsize * info0.ysize * d.pixel_format.num_channels)
    (hbfired : ∃ r ∈ pre, r.processStatus = JXL_DEC_NEED_IMAGE_OUT_BUFFER) :
    Except.map (fun p => (p.1, p.2.length))
        (JXLDecoder.decode d
          (Engine.mk JXL_DEC_SUCCESS JXL_DEC_SUCCESS (pre ++ s :: rest)) : _ × _).1 =
      Except.ok (info0, info0.xsize * info0.ysize * d.pixel_format.num_channels) := by
  rw [decode_fst_eq_loop d _ rfl rfl, decodeLoop_append_fst pre (s :: rest) none [] hpre,
    decodeLoop_cons_success s rest _ _ hs, infoAfter_of_fired pre none info0 hinfo hifired]
  simp only [Except.map]
  rw [bufAfter_length pre [] _ hsize hbfired]

/-- Claim C2 witness: a 2 by 3 image with the default 4 channels gives a
buffer of 24 elements. -/
theorem claim2_witness :
    Except.map (fun p => (p.1, p.2.length))
        (JXLDecoder.decode sampleDecoder
          (Engine.mk JXL_DEC_SUCCESS JXL_DEC_SUCCESS
            ([infoIter ⟨2, 3⟩, needBufIter 24] ++ successIter :: [])) : _ × _).1 =
      Except.ok ((⟨2, 3⟩ : BasicInfo), 24) :=
  claim2_theorem sampleDecoder [infoIter ⟨2, 3⟩, needBufIter 24] [] successIter ⟨2, 3⟩
    (by decide) (by decide) (by decide) (by decide) (by decide) (by decide)

/-- Claim C4: if the engine reports success without the basic-info event ever
having fired, decode returns GenericError; and a success tuple is returned
only if the metadata event fired during that decode - the call trace of every
decode that returns Ok contains the basic-info read. -/
theorem claim4_theorem {T : Type} [PixelType T] (d : JXLDecoder T) (pre rest : List IterResp)
    (s : IterResp) (hpre : ∀ i ∈ pre, i.continuing)
    (hnoinfo : ∀ i ∈ pre, i.processStatus ≠ JXL_DEC_BASIC_INFO)
    (hs : s.processStatus = JXL_DEC_SUCCESS) :
    (JXLDecoder.decode d
        (Engine.mk JXL_DEC_SUCCESS JXL_DEC_SUCCESS (pre ++ s :: rest)) : _ × _).1 =
      Except.error DecodeError.GenericError ∧
    ∀ (eng : Engine) (p : BasicInfo × List T), (JXLDecoder.decode d eng).1 = Except.ok p →
      EngCall.getBasicInfo ∈ (JXLDecoder.decode d eng).2 := by
  constructor
  · rw [decode_fst_eq_loop d _ rfl rfl, decodeLoop_append_fst pre (s :: rest) none [] hpre,
      decodeLoop_cons_success s rest _ _ hs, infoAfter_no_info pre none hnoinfo]
  · exact fun eng p h => decode_ok_mem_getInfo d eng p h

/-- Claim C4 witness: a run that reaches success without metadata errors, and
a successful run whose trace contains the basic-info read. -/
theorem claim4_witness :
    (JXLDecoder.decode sampleDecoder
        (Engine.mk JXL_DEC_SUCCESS JXL_DEC_SUCCESS ([needBufIter 4] ++ successIter :: []))).1 =
      Except.error DecodeError.GenericError ∧
    EngCall.getBasicInfo ∈
      (JXLDecoder.decode sampleDecoder
        (Engine.mk JXL_DEC_SUCCESS JXL_DEC_SUCCESS [infoIter ⟨1, 2⟩, successIter])).2 :=
  ⟨(claim4_theorem sampleDecoder [needBufIter 4] [] successIter
      (by decide) (by decide) (by decide)).1,
    (claim4_theorem sampleDecoder [needBufIter 4] [] successIter
      (by decide) (by decide) (by decide)).2
      (Engine.mk JXL_DEC_SUCCESS JXL_DEC_SUCCESS [infoIter ⟨1, 2⟩, successIter])
      (⟨1, 2⟩, []) rfl⟩

/-- Claim C5: when the engine reports the success status, the decode call
calls the engine reset before returning (the reset call is in the trace), and
the same handle, unreconstructed, can then run a further successful decode on
another valid input. -/
theorem claim5_theorem {T : Type} [PixelType T] (d : JXLDecoder T) (pre rest : List IterResp)
    (s : IterResp) (hpre : ∀ i ∈ pre, i.continuing) (hs : s.processStatus = JXL_DEC_SUCCESS) :
    EngCall.reset ∈
      (JXLDecoder.decode d
        (Engine.mk JXL_DEC_SUCCESS JXL_DEC_SUCCESS (pre ++ s :: rest)) : _ × _).2 ∧
    ∀ (i2 : BasicInfo) (n : Nat),
      (JXLDecoder.decode d
          (Engine.mk JXL_DEC_SUCCESS JXL_DEC_SUCCESS
            [infoIter i2, needBufIter n, successIter]) : _ × _).1 =
        Except.ok (i2, List.replicate n (PixelType.default : T)) := by
  constructor
  · refine decode_mem_of_loop_mem d _ rfl rfl EngCall.reset ?_
    refine decodeLoop_append_mem pre (s :: rest) none [] hpre EngCall.reset ?_
    rw [decodeLoop_cons_success s rest _ _ hs]
    cases infoAfter pre none <;> simp
  · intro i2 n
    rw [decode_fst_eq_loop d _ rfl rfl]
    show (decodeLoop (infoIter i2 :: needBufIter n :: successIter :: []) none []).1 = _
    rw [decodeLoop_cons_info _ _ _ _ rfl rfl]
    show (decodeLoop (needBufIter n :: successIter :: []) (some i2) []).1 = _
    rw [decodeLoop_cons_needbuf _ _ _ _ rfl rfl rfl]
    show (decodeLoop (successIter :: []) (some i2)
      (resize [] (needBufIter n).size PixelType.default)).1 = _
    rw [decodeLoop_cons_success _ _ _ _ rfl]
    simp [resize, needBufIter]

/-- Claim C5 witness: concrete success run with the reset in the trace,
followed by a second successful decode on the same handle. -/
theorem claim5_witness :
    EngCall.reset ∈
      (JXLDecoder.decode sampleDecoder
        (Engine.mk JXL_DEC_SUCCESS JXL_DEC_SUCCESS ([infoIter ⟨1, 1⟩] ++ successIter :: []))).2 ∧
    (JXLDecoder.decode sampleDecoder
        (Engine.mk JXL_DEC_SUCCESS JXL_DEC_SUCCESS
          [infoIter ⟨6, 7⟩, needBufIter 8, successIter])).1 =
      Except.ok ((⟨6, 7⟩ : BasicInfo), List.replicate 8 (PixelType.default : Nat)) :=
  ⟨(claim5_theorem sampleDecoder [infoIter ⟨1, 1⟩] [] successIter (by decide) (by decide)).1,
    (claim5_theorem sampleDecoder [infoIter ⟨1, 1⟩] [] successIter
      (by decide) (by decide)).2 ⟨6, 7⟩ 8⟩

/-- Claim C6 (amended): when a parallel runner is configured the decode call
wires it before any input processing - the first engine call of the trace is
the runner installation, and on a wiring failure no process-input call is
ever made - but a wiring failure is surfaced through the very same
DecodeError type as decode-time failures (the error check_dec_status assigns
the status), not as a distinct setup-error kind. -/
theorem claim6_theorem {T : Type} [PixelType T] (d : JXLDecoder T) (eng : Engine)
    (h : d.parallel_runner.isSome = true) :
    (JXLDecoder.decode d eng : _ × _).2.head? = some EngCall.setParallelRunner ∧
    ∀ e, check_dec_status eng.setRunnerStatus = Except.error e →
      (JXLDecoder.decode d eng : _ × _).1 = Except.error e ∧
      EngCall.processInput ∉ (JXLDecoder.decode d eng : _ × _).2 := by
  rcases hp : d.parallel_runner with _ | pr
  · rw [hp] at h; cases h
  constructor
  · rcases hs : check_dec_status eng.setRunnerStatus with e | u
    · simp [JXLDecoder.decode, hp, hs]
    · rcases hs2 : check_dec_status eng.subscribeStatus with e | u2
      · simp [JXLDecoder.decode, hp, hs, hs2]
      · simp [JXLDecoder.decode, hp, hs, hs2]
  · intro e he
    refine ⟨?_, ?_⟩ <;> simp [JXLDecoder.decode, hp, he]

/-- Claim C6 counterexample: with the default-built decoder (a runner is
configured), an engine whose SetParallelRunner call fails with the error
status makes decode return GenericError - exactly the same error value a
decode-time engine error produces - so the wiring failure is not surfaced as
a setup error distinct from decode-time errors. -/
theorem claim6_counterexample :
    (JXLDecoder.decode sampleDecoder (Engine.mk JXL_DEC_ERROR JXL_DEC_SUCCESS [])).1 =
      Except.error DecodeError.GenericError ∧
    (JXLDecoder.decode sampleDecoder
        (Engine.mk JXL_DEC_SUCCESS JXL_DEC_SUCCESS [errorIter])).1 =
      Except.error DecodeError.GenericError :=
  ⟨rfl, rfl⟩

/-- Claim C6 witness: concrete wiring failure - the runner installation is
the first and only engine call, and decode aborts with the mapped error. -/
theorem claim6_witness :
    (JXLDecoder.decode sampleDecoder (Engine.mk JXL_DEC_ERROR JXL_DEC_SUCCESS [])).2.head? =
      some EngCall.setParallelRunner ∧
    (JXLDecoder.decode sampleDecoder (Engine.mk JXL_DEC_ERROR JXL_DEC_SUCCESS [])).1 =
      Except.error DecodeError.GenericError ∧
    EngCall.processInput ∉
      (JXLDecoder.decode sampleDecoder (Engine.mk JXL_DEC_ERROR JXL_DEC_SUCCESS [])).2 :=
  ⟨(claim6_theorem sampleDecoder (Engine.mk JXL_DEC_ERROR JXL_DEC_SUCCESS []) rfl).1,
    ((claim6_theorem sampleDecoder (Engine.mk JXL_DEC_ERROR JXL_DEC_SUCCESS []) rfl).2
      DecodeError.GenericError rfl).1,
    ((claim6_theorem sampleDecoder (Engine.mk JXL_DEC_ERROR JXL_DEC_SUCCESS []) rfl).2
      DecodeError.GenericError rfl).2⟩

/-- Claim C7: an engine status outside the recognized set (success, error,
need-more-input, basic-info, need-image-out-buffer, full-image) makes decode
return UnknownStatus carrying the raw status code, a value distinct from
GenericError. -/
theorem claim7_theorem {T : Type} [PixelType T] (d : JXLDecoder T) (pre rest : List IterResp)
    (r : IterResp) (hpre : ∀ i ∈ pre, i.continuing)
    (hr : r.processStatus ∉ ([JXL_DEC_SUCCESS, JXL_DEC_ERROR, JXL_DEC_NEED_MORE_INPUT,
      JXL_DEC_BASIC_INFO, JXL_DEC_NEED_IMAGE_OUT_BUFFER, JXL_DEC_FULL_IMAGE] : List Nat)) :
    (JXLDecoder.decode d
        (Engine.mk JXL_DEC_SUCCESS JXL_DEC_SUCCESS (pre ++ r :: rest)) : _ × _).1 =
      Except.error (DecodeError.UnknownStatus r.processStatus) ∧
    DecodeError.UnknownStatus r.processStatus ≠ DecodeError.GenericError := by
  simp only [List.mem_cons, List.not_mem_nil, or_false, not_or] at hr
  obtain ⟨h6, h1, h2, h3, h4, h5⟩ := hr
  constructor
  · rw [decode_fst_eq_loop d _ rfl rfl, decodeLoop_append_fst pre (r :: rest) none [] hpre,
      decodeLoop_cons_unknown r rest _ _ h1 h2 h3 h4 h5 h6]
  · exact fun h => DecodeError.noConfusion h

/-- Claim C7 witness: the need-preview-out-buffer status (raw code 3), not
recognized by this loop, yields UnknownStatus 3. -/
theorem claim7_witness :
    (JXLDecoder.decode sampleDecoder
        (Engine.mk JXL_DEC_SUCCESS JXL_DEC_SUCCESS ([infoIter ⟨1, 1⟩] ++ unknownIter :: []))).1 =
      Except.error (DecodeError.UnknownStatus 3) ∧
    DecodeError.UnknownStatus 3 ≠ DecodeError.GenericError :=
  claim7_theorem sampleDecoder [infoIter ⟨1, 1⟩] [] unknownIter (by decide) (by decide)

/-- Claim C10: for every successful decode, over any element type T, the
element count of the returned buffer equals exactly the numeric size value the
engine's output-buffer-size query reported - the reported value is used as an
element count, with no conversion from bytes to elements for wider element
types. -/
theorem claim10_theorem {T : Type} [PixelType T] (d : JXLDecoder T) (pre rest : List IterResp)
    (s : IterResp) (n : Nat)
    (hpre : ∀ i ∈ pre, i.continuing) (hs : s.processStatus = JXL_DEC_SUCCESS)
    (hifired : ∃ r ∈ pre, r.processStatus = JXL_DEC_BASIC_INFO)
    (hsize : ∀ r ∈ pre, r.processStatus = JXL_DEC_NEED_IMAGE_OUT_BUFFER → r.size = n)
    (hbfired : ∃ r ∈ pre, r.processStatus = JXL_DEC_NEED_IMAGE_OUT_BUFFER) :
    Except.map (fun p => p.2.length)
        (JXLDecoder.decode d
          (Engine.mk JXL_DEC_SUCCESS JXL_DEC_SUCCESS (pre ++ s :: rest)) : _ × _).1 =
      Except.ok n := by
  rw [decode_fst_eq_loop d _ rfl rfl, decodeLoop_append_fst pre (s :: rest) none [] hpre,
    decodeLoop_cons_success s rest _ _ hs]
  obtain ⟨j, hj⟩ := infoAfter_isSome pre none hifired
  rw [hj]
  simp only [Except.map]
  rw [bufAfter_length pre [] n hsize hbfired]

/-- Claim C10 witness: a size query reporting 13 yields a 13-element buffer. -/
theorem claim10_witness :
    Except.map (fun p => p.2.length)
        (JXLDecoder.decode sampleDecoder
          (Engine.mk JXL_DEC_SUCCESS JXL_DEC_SUCCESS
            ([infoIter ⟨1, 1⟩, needBufIter 13] ++ successIter :: [])) : _ × _).1 =
      Except.ok 13 :=
  claim10_theorem sampleDecoder [infoIter ⟨1, 1⟩, needBufIter 13] [] successIter 13
    (by decide) (by decide) (by decide) (by decide) (by decide)
